import Mathlib

/-!
Verification of the CS2-Widget repository against its specification.

The embedding covers:
* the process orchestrator of `proxy-server.mjs` (embedded in
  `src/docs/leetify-api.md`): `parseMarkedPayload`, `runWinProbability`;
* the client logic of `src/script.js`: `renderWinProbability`,
  `renderLiveWinProbability`, `applyLiveWinprobDelta`,
  `refreshLiveWinProbability` / `startLiveWinprobRefresh` (modelled as a
  transition system), `matchesNoActiveMatchText`, `isNoActiveMatchPayload`
  and the outcome boundary of `fetchWinProbability`;
* the logistic combiner of `win_probability/faceit_winprob.py`, which is not
  shipped under `src/` and is therefore modelled from the spec.

JavaScript strings are modelled as `List Char`; JavaScript numbers that the
relevant code only ever reads through `asFiniteNumber` / `Number.isFinite`
are modelled as `Option ℚ` (with `none` standing for `NaN`, `undefined`,
`null` or a non-numeric value) or as `ℚ` where the code guarantees
finiteness.  JSON parsing (`JSON.parse` wrapped in `try/catch`) is an
external library call and is modelled as a parameter
`parse : JsStr → Option α` (with `none` standing for a parse exception).
-/

namespace CS2Widget

/-- JavaScript strings, modelled as lists of characters. -/
abbrev JsStr := List Char

/-- Whitespace recognised by the JavaScript `String.prototype.trim`,
restricted to the ASCII whitespace characters that can actually occur in the
captured process output. -/
def isJsWhitespace (c : Char) : Bool :=
  c = ' ' || c = '\t' || c = '\n' || c = '\r' || c = '\x0b' || c = '\x0c'

/-- JavaScript `value.trim()`: remove leading and trailing whitespace. -/
def jsTrim (s : JsStr) : JsStr :=
  ((s.dropWhile isJsWhitespace).reverse.dropWhile isJsWhitespace).reverse

/-- JavaScript `s.startsWith(pat)` on the `List Char` model. -/
def startsWithChars : JsStr → JsStr → Bool
  | _, [] => true
  | [], _ :: _ => false
  | c :: cs, p :: ps => c = p && startsWithChars cs ps

/-- JavaScript `s.includes(pat)` on the `List Char` model:
`containsSeq pat s` holds when `pat` occurs contiguously inside `s`. -/
def containsSeq (pat : JsStr) : JsStr → Bool
  | [] => startsWithChars [] pat
  | c :: rest => startsWithChars (c :: rest) pat || containsSeq pat rest

/-- JavaScript `s.toLowerCase()` on the `List Char` model (the phrasings the
code compares against are ASCII, where `Char.toLower` agrees with
JavaScript). -/
def toLowerChars (s : JsStr) : JsStr := s.map Char.toLower

/-- The line-splitting and cleaning stage of `parseMarkedPayload`
(proxy-server.mjs, embedded in src/docs/leetify-api.md, lines 891-895):
`String(stdout || "").split(/\r?\n/g).map((line) => line.trim()).filter(Boolean)`.
Splitting on `'\n'` followed by `trim` agrees with splitting on `/\r?\n/`
followed by `trim`, because the only `'\r'` a `/\r?\n/` split would consume
sits at the end of its line and is removed by `trim`. -/
def cleanLines (stdout : JsStr) : List JsStr :=
  ((List.splitOnP (fun c => c = '\n') stdout).map jsTrim).filter (fun l => l ≠ [])

/-- The backwards scan of `parseMarkedPayload` (leetify-api.md lines
897-901): walk the cleaned lines from the last one towards the first and
stop at the first line that starts with the marker. -/
def lastMarkerLine (marker : JsStr) (lines : List JsStr) : Option JsStr :=
  lines.reverse.find? (fun l => startsWithChars l marker)

/-- `parseMarkedPayload(stdout, marker)` (leetify-api.md lines 891-912):
clean the captured stdout into trimmed non-empty lines, scan from the end
for the most recent marker-prefixed line, strip the marker, trim, and JSON
parse the remainder; a parse exception on that line yields `null` (the
earlier lines are not revisited), as does the absence of any marker line.
`parse` models `JSON.parse` wrapped in the `try/catch`. -/
def parseMarkedPayload {α : Type} (parse : JsStr → Option α)
    (stdout marker : JsStr) : Option α :=
  match lastMarkerLine marker (cleanLines stdout) with
  | none => none
  | some line => parse (jsTrim (line.drop marker.length))

/-- The result of `spawnProcess` (leetify-api.md lines 914-957): exit code
(`Number(code || 0)`), captured stdout and stderr, and the `timedOut` flag
set by the kill timer. -/
structure ProcResult where
  code : Int
  stdout : JsStr
  stderr : JsStr
  timedOut : Bool

/-- JavaScript `a || b` on strings (the empty string is the only falsy
string): used for the `stderr || stdout` diagnostic detail. -/
def orNonempty (a b : JsStr) : JsStr := if a = [] then b else a

/-- The five possible outcomes of `runWinProbability` (leetify-api.md lines
843-889), in the order the code resolves them: `timeoutFailure` (thrown with
status 504 and `stderr || stdout` as detail), `callerError` (a parsed
payload carrying `ok === false`, thrown with status 400), `success` (a
parsed payload returned to the caller), `invocationFailure` (no payload,
non-zero exit, thrown with status 502, exit code in the message and
`stderr || stdout` as detail), and `payloadMissing` (no payload, zero exit,
thrown with status 502 and the raw stdout as detail). -/
inductive WinProbOutcome (α : Type) where
  | timeoutFailure (detail : JsStr)
  | callerError (payload : α)
  | success (payload : α)
  | invocationFailure (exitCode : Int) (detail : JsStr)
  | payloadMissing (detail : JsStr)
deriving DecidableEq

/-- The outcome resolution of `runWinProbability` (leetify-api.md lines
855-888), applied to the completed `spawnProcess` result: (1) `timedOut` →
timeout failure with `stderr || stdout`; otherwise (2) a parsed marker
payload → caller error when it signals `ok === false`, else success; (3) no
payload and non-zero exit → invocation failure; (4) no payload and zero
exit → payload missing.  `isNotOk` models the `payload.ok === false` test on
the parsed JSON value. -/
def runWinProbability {α : Type} (parse : JsStr → Option α) (isNotOk : α → Bool)
    (marker : JsStr) (r : ProcResult) : WinProbOutcome α :=
  if r.timedOut then
    .timeoutFailure (orNonempty r.stderr r.stdout)
  else
    match parseMarkedPayload parse r.stdout marker with
    | some p => if isNotOk p then .callerError p else .success p
    | none =>
        if r.code ≠ 0 then .invocationFailure r.code (orNonempty r.stderr r.stdout)
        else .payloadMissing r.stdout

/-- `firstFiniteNumber(...values)` (src/script.js lines 1449-1457): the first
candidate that `asFiniteNumber` turns into a finite number.  Candidates are
modelled post-`asFiniteNumber`, so each is an `Option ℚ` with `none` for a
missing field or a non-finite value. -/
def firstFiniteNumber (vals : List (Option ℚ)) : Option ℚ :=
  vals.findSome? (fun v => v)

/-- The magnitude heuristic shared by `renderWinProbability` (src/script.js
lines 686-688) and `renderLiveWinProbability` (lines 727-729): a finite
value strictly above 1 and at most 100 is read as a percentage and divided
by 100; any other finite value is used as-is. -/
def interpretProbability (v : ℚ) : ℚ :=
  if 1 < v ∧ v ≤ 100 then v / 100 else v

/-- `Math.max(0, Math.min(1, probability))` (src/script.js lines 697, 740). -/
def clamp01 (v : ℚ) : ℚ := max 0 (min 1 v)

/-- The trend classification of `applyLiveWinprobDelta` (src/script.js lines
776-782): strictly above `0.05` is `up`, strictly below `-0.05` is `down`,
anything else (the inclusive dead-band) is `flat`. -/
inductive DeltaDir where
  | up
  | down
  | flat
deriving DecidableEq

/-- The `if` chain of `applyLiveWinprobDelta` (src/script.js lines 773-782)
that picks the direction and indicator from the finite `deltaPct`. -/
def classifyDelta (deltaPct : ℚ) : DeltaDir :=
  if deltaPct > 5 / 100 then .up
  else if deltaPct < -(5 / 100) then .down
  else .flat

/-- `applyLiveWinprobDelta(deltaPct, hasPrevious)` (src/script.js lines
765-787): when `hasPrevious` is false or `deltaPct` is not finite (`none`),
the delta indicator is cleared (`none`); otherwise the delta is classified
and shown. -/
def applyLiveWinprobDelta (deltaPct : Option ℚ) (hasPrevious : Bool) :
    Option DeltaDir :=
  if hasPrevious = false then none
  else
    match deltaPct with
    | none => none
    | some d => some (classifyDelta d)

/-- The fields of a live win-probability payload that
`renderLiveWinProbability` reads (src/script.js lines 711, 720-725), each
already passed through `asFiniteNumber`. -/
structure LivePayload where
  no_active_match : Bool
  dynamic_win_probability : Option ℚ
  dynamicWinProbability : Option ℚ
  dynamic_win_probability_pct : Option ℚ
  dynamicWinProbabilityPct : Option ℚ

/-- The candidate chain of `renderLiveWinProbability` (src/script.js lines
720-725); a `null` payload contributes only `undefined` candidates. -/
def liveCandidates : Option LivePayload → Option ℚ
  | none => none
  | some p =>
      firstFiniteNumber [p.dynamic_win_probability, p.dynamicWinProbability,
        p.dynamic_win_probability_pct, p.dynamicWinProbabilityPct]

/-- `payload?.no_active_match === true` (src/script.js lines 671, 711). -/
def payloadNoActive : Option LivePayload → Bool
  | none => false
  | some p => p.no_active_match

/-- What `renderLiveWinProbability` leaves on screen: the distinguished
no-active-match state (`--%` plus the text `Aucune partie en cours`, delta
cleared), the unavailable state (`--%` plus `Live indisponible`, delta
cleared), or a percentage with an optional delta indicator. -/
inductive LiveRender where
  | noActiveMatch
  | liveUnavailable
  | value (pct : ℚ) (delta : Option DeltaDir)
deriving DecidableEq

/-- `renderLiveWinProbability(payload)` (src/script.js lines 706-753) as a
function of the retained `RUNTIME.lastLiveWinprobPct` (first argument,
`none` for `NaN`) and the payload; it returns what is rendered together
with the new value of `RUNTIME.lastLiveWinprobPct`. -/
def renderLiveWinProbability (lastPct : Option ℚ) (payload : Option LivePayload) :
    LiveRender × Option ℚ :=
  if payloadNoActive payload then (.noActiveMatch, none)
  else
    match liveCandidates payload with
    | none => (.liveUnavailable, none)
    | some v0 =>
        let pct := 100 * clamp01 (interpretProbability v0)
        let deltaPct := lastPct.map (fun prev => pct - prev)
        (.value pct (applyLiveWinprobDelta deltaPct lastPct.isSome), some pct)

/-- The fields of a win-probability payload that `renderWinProbability`
reads (src/script.js lines 671, 678-684), each already passed through
`asFiniteNumber`. -/
structure WinProbDisplayPayload where
  no_active_match : Bool
  win_probability : Option ℚ
  winProbability : Option ℚ
  probability : Option ℚ
  win_probability_pct : Option ℚ
  winProbabilityPct : Option ℚ

/-- The candidate chain of `renderWinProbability` (src/script.js lines
678-684). -/
def winprobCandidates : Option WinProbDisplayPayload → Option ℚ
  | none => none
  | some p =>
      firstFiniteNumber [p.win_probability, p.winProbability, p.probability,
        p.win_probability_pct, p.winProbabilityPct]

/-- What `renderWinProbability` leaves on screen: either the placeholder
(`--%` with the text `Aucune partie en cours`, used both for an explicit
no-active-match payload and for a payload with no finite candidate), or a
percentage value. -/
inductive WinProbRender where
  | unavailable
  | value (pct : ℚ)
deriving DecidableEq

/-- `renderWinProbability(payload)` (src/script.js lines 666-704): the
explicit no-active-match flag or a missing finite candidate render the
placeholder; otherwise the candidate is interpreted by magnitude, clamped
to `[0,1]` and displayed as `clamped * 100` percent. -/
def renderWinProbability (payload : Option WinProbDisplayPayload) : WinProbRender :=
  if (match payload with | some p => p.no_active_match | none => false) then
    .unavailable
  else
    match winprobCandidates payload with
    | none => .unavailable
    | some v => .value (100 * clamp01 (interpretProbability v))

/-- State of the Live Delta Tracker guard (src/script.js lines 124,
789-824): the `isLiveWinprobRefreshing` flag, plus a count of
live-probability requests currently in flight (the number of
`fetchLiveWinProbability` calls started on line 809 whose `finally` on line
822 has not yet run). -/
structure TrackerState where
  refreshing : Bool
  inFlight : Nat
deriving DecidableEq

/-- Events of the Live Delta Tracker: a timer tick (src/script.js lines
969-971 invoking `refreshLiveWinProbability`) and the completion of an
in-flight request (the `finally` block on lines 818-823). -/
inductive TrackerEvent where
  | tick
  | complete

/-- One step of the Live Delta Tracker control flow
(`refreshLiveWinProbability`, src/script.js lines 789-824).  A tick returns
immediately when the winprob sections are disabled (lines 790-792) or when
`isLiveWinprobRefreshing` is already set (lines 793-795); otherwise it sets
the flag (line 800) and starts one request.  A completion clears the flag
and ends the request (lines 818-823). -/
def trackerStep (enabled : Bool) (s : TrackerState) : TrackerEvent → TrackerState
  | .tick =>
      if enabled && !s.refreshing then
        { refreshing := true, inFlight := s.inFlight + 1 }
      else s
  | .complete =>
      if s.refreshing then { refreshing := false, inFlight := s.inFlight - 1 }
      else s

/-- Run the tracker over a sequence of events. -/
def trackerRun (enabled : Bool) (s : TrackerState) : List TrackerEvent → TrackerState
  | [] => s
  | e :: es => trackerRun enabled (trackerStep enabled s e) es

/-- The tracker state before the first tick: flag clear, nothing in flight
(src/script.js line 124). -/
def trackerInit : TrackerState := ⟨false, 0⟩

/-- `matchesNoActiveMatchText(value)` (src/script.js lines 1495-1505):
lowercase the text and look for one of the three known phrasings. -/
def matchesNoActiveMatchText (value : JsStr) : Bool :=
  let text := toLowerChars value
  if text = [] then false
  else
    containsSeq "aucune partie en cours".data text ||
    containsSeq "no ongoing match".data text ||
    containsSeq "no match in progress".data text

/-- The `detail` field of a not-ok payload as `isNoActiveMatchPayload`
inspects it (src/script.js lines 1472-1479): a plain object (only its
`error` and `message` strings matter, with the empty string for a missing
field), a plain string, or anything else. -/
inductive DetailField where
  | other
  | str (s : JsStr)
  | obj (error message : JsStr)
deriving DecidableEq

/-- A win-probability HTTP payload as the boundary of
`fetchWinProbability` inspects it (src/script.js lines 384-393, 1463-1482):
whether `payload.ok === false`, the `error` and `message` strings (empty
for a missing field) and the `detail` field. -/
structure WinProbHttpPayload where
  okFalse : Bool
  error : JsStr
  message : JsStr
  detail : DetailField
deriving DecidableEq

/-- `isNoActiveMatchPayload(payload)` (src/script.js lines 1463-1482):
match the known phrasings against `payload.error`, `payload.message`, and
the `error`/`message` of an object `detail` or a string `detail`. -/
def isNoActiveMatchPayload (p : WinProbHttpPayload) : Bool :=
  if matchesNoActiveMatchText p.error || matchesNoActiveMatchText p.message then
    true
  else
    match p.detail with
    | .obj e m => matchesNoActiveMatchText e || matchesNoActiveMatchText m
    | .str s => matchesNoActiveMatchText s
    | .other => false

/-- The outcome of `fetchWinProbability` at its boundary: a success-shaped
result flagged `no_active_match: true` (src/script.js lines 371-375 and
386-390), the payload passed through (line 400), or a thrown failure. -/
inductive FetchOutcome where
  | noActiveMatchSuccess
  | success (p : WinProbHttpPayload)
  | failure (msg : JsStr)
deriving DecidableEq

/-- The error/not-ok boundary of `fetchWinProbability` (src/script.js lines
362-401), as a function of the `fetchJson` result: a thrown error whose
message matches the known phrasings becomes the success-shaped
`no_active_match` result (lines 370-376), any other thrown error is
re-thrown (line 377); a payload with `ok === false` matching
`isNoActiveMatchPayload` becomes the success-shaped `no_active_match`
result (lines 385-391), any other `ok === false` payload is thrown as an
error (line 392); everything else is returned as a success (line 400). -/
def fetchWinProbabilityOutcome (result : Except JsStr WinProbHttpPayload) :
    FetchOutcome :=
  match result with
  | .error e =>
      if matchesNoActiveMatchText e then .noActiveMatchSuccess else .failure e
  | .ok p =>
      if p.okFalse then
        if isNoActiveMatchPayload p then .noActiveMatchSuccess
        else
          .failure (if p.error = [] then
            "Calcul win probability impossible.".data else p.error)
      else .success p

/-- `clamp(x, lo, hi)` over the rationals. -/
def clampQ (x lo hi : ℚ) : ℚ := max lo (min hi x)

/-- Modelled from the spec: the Logistic Combiner of
`win_probability/faceit_winprob.py`, which is not shipped under `src/`
(only its README and callers are).  Per spec section 4.6 the score
difference `diff = team_average(A) - team_average(B)` is mapped through the
logistic `p_raw = 1 / (1 + exp(-k * diff))` for a fixed steepness `k`, and
the final probability is `clamp(p_raw, 0.05, 0.95)` (README: the
probability is bounded between 5% and 95%).  The real exponential is an
external math routine and is modelled as the parameter `expFn`. -/
def winProbabilityOfDiff (expFn : ℚ → ℚ) (k diff : ℚ) : ℚ :=
  clampQ (1 / (1 + expFn (-(k * diff)))) (5 / 100) (95 / 100)

/-! ## Helper lemmas -/

theorem find?_forall_false_append {α : Type} (p : α → Bool) (l₁ l₂ : List α)
    (h : ∀ x ∈ l₁, p x = false) : (l₁ ++ l₂).find? p = l₂.find? p := by
  induction l₁ with
  | nil => rfl
  | cons a as ih =>
      have ha : p a = false := h a (by simp)
      simp only [List.cons_append, List.find?, ha]
      exact ih (fun x hx => h x (by simp [hx]))

theorem lastMarkerLine_concat (marker m : JsStr) (pre post : List JsStr)
    (hm : startsWithChars m marker = true)
    (hpost : ∀ l ∈ post, startsWithChars l marker = false) :
    lastMarkerLine marker (pre ++ m :: post) = some m := by
  unfold lastMarkerLine
  rw [List.reverse_append, List.reverse_cons, List.append_assoc,
    List.singleton_append,
    find?_forall_false_append _ _ _
      (fun x hx => hpost x (List.mem_reverse.mp hx))]
  simp [List.find?, hm]

theorem trackerRun_flight_eq (enabled : Bool) (evs : List TrackerEvent)
    (s : TrackerState) (hs : s.inFlight = if s.refreshing then 1 else 0) :
    (trackerRun enabled s evs).inFlight =
      if (trackerRun enabled s evs).refreshing then 1 else 0 := by
  induction evs generalizing s with
  | nil => exact hs
  | cons e es ih =>
      refine ih (trackerStep enabled s e) ?_
      cases e with
      | tick =>
          cases hr : s.refreshing with
          | false =>
              cases he : enabled with
              | false => simpa [trackerStep, hr, he] using hs
              | true =>
                  simp [hr] at hs
                  simp [trackerStep, hr, he, hs]
          | true => simpa [trackerStep, hr] using hs
      | complete =>
          cases hr : s.refreshing with
          | false => simpa [trackerStep, hr] using hs
          | true =>
              simp [hr] at hs
              simp [trackerStep, hr, hs]

/-! ## Claim theorems -/

/-- Claim C1: for every invocation of the win-probability computation, if
the external process exceeded its timeout budget (`timedOut` flag set),
`runWinProbability` resolves to the timeout failure carrying the captured
`stderr || stdout` as diagnostic detail, whatever the captured stdout
contains — in particular even when a valid marker-prefixed payload line was
written; the marker is never consulted in the timed-out case. -/
theorem runWinProbability_timeout_precedence {α : Type}
    (parse : JsStr → Option α) (isNotOk : α → Bool) (marker : JsStr)
    (r : ProcResult) (h : r.timedOut = true) :
    runWinProbability parse isNotOk marker r =
      .timeoutFailure (orNonempty r.stderr r.stdout) := by
  unfold runWinProbability
  rw [h]
  rfl

/-- Witness for C1: a forced-timeout invocation whose stdout carries a valid
marker payload still resolves to the timeout failure, and the marker line is
indeed parseable. -/
theorem runWinProbability_timeout_precedence_witness :
    (parseMarkedPayload (fun s : JsStr => some s)
        "log line\n__WINPROB_JSON__ payload\n".data "__WINPROB_JSON__".data).isSome
      = true ∧
    runWinProbability (fun s : JsStr => some s) (fun _ => false)
        "__WINPROB_JSON__".data
        ⟨0, "log line\n__WINPROB_JSON__ payload\n".data, [], true⟩ =
      .timeoutFailure "log line\n__WINPROB_JSON__ payload\n".data := by
  refine ⟨by decide, ?_⟩
  have h := runWinProbability_timeout_precedence (fun s : JsStr => some s)
    (fun _ => false) "__WINPROB_JSON__".data
    ⟨0, "log line\n__WINPROB_JSON__ payload\n".data, [], true⟩ rfl
  rw [h]
  decide

/-- Claim C2: marker extraction returns the payload parsed from the last
marker-prefixed line in stream order: whenever the cleaned stdout lines
decompose as `pre ++ m :: post` with `m` marker-prefixed and no line of
`post` marker-prefixed (the lines of `pre` being arbitrary, marker-prefixed
or not), the result of `parseMarkedPayload` is exactly the parse of the
payload of `m`. -/
theorem parseMarkedPayload_last_marker {α : Type} (parse : JsStr → Option α)
    (stdout marker : JsStr) (pre post : List JsStr) (m : JsStr)
    (hsplit : cleanLines stdout = pre ++ m :: post)
    (hm : startsWithChars m marker = true)
    (hpost : ∀ l ∈ post, startsWithChars l marker = false) :
    parseMarkedPayload parse stdout marker =
      parse (jsTrim (m.drop marker.length)) := by
  unfold parseMarkedPayload
  rw [hsplit, lastMarkerLine_concat marker m pre post hm hpost]

/-- Witness for C2: with two marker lines interleaved with unrelated log
lines before and after, the payload of the last marker line is returned. -/
theorem parseMarkedPayload_last_marker_witness :
    parseMarkedPayload (fun s : JsStr => some s)
        "boot log\nMARK first\n  noise  \nMARK second\ntrailing text".data
        "MARK".data = some "second".data := by
  have h := parseMarkedPayload_last_marker (fun s : JsStr => some s)
    "boot log\nMARK first\n  noise  \nMARK second\ntrailing text".data
    "MARK".data
    ["boot log".data, "MARK first".data, "noise".data]
    ["trailing text".data] "MARK second".data
    (by decide) (by decide) (by decide)
  rw [h]
  decide

/-- Claim C3: a non-timed-out invocation whose stdout yields no parseable
marker payload is resolved by the exit status: non-zero exit gives the
invocation failure carrying the exit code and the captured
`stderr || stdout`, zero exit gives the distinct payload-missing defect
outcome carrying the raw stdout. -/
theorem runWinProbability_no_payload {α : Type} (parse : JsStr → Option α)
    (isNotOk : α → Bool) (marker : JsStr) (r : ProcResult)
    (ht : r.timedOut = false)
    (hp : parseMarkedPayload parse r.stdout marker = none) :
    runWinProbability parse isNotOk marker r =
      if r.code ≠ 0 then .invocationFailure r.code (orNonempty r.stderr r.stdout)
      else .payloadMissing r.stdout := by
  unfold runWinProbability
  rw [ht, hp]
  rfl

/-- Witness for C3: with a marker-free stdout, exit code 2 yields the
invocation failure with that exit code and the captured stderr, and exit
code 0 yields the payload-missing outcome. -/
theorem runWinProbability_no_payload_witness :
    runWinProbability (fun s : JsStr => some s) (fun _ => false) "MARK".data
        ⟨2, "no marker here".data, "boom".data, false⟩ =
      .invocationFailure 2 "boom".data ∧
    runWinProbability (fun s : JsStr => some s) (fun _ => false) "MARK".data
        ⟨0, "no marker here".data, [], false⟩ =
      .payloadMissing "no marker here".data := by
  constructor
  · have h := runWinProbability_no_payload (fun s : JsStr => some s)
      (fun _ => false) "MARK".data ⟨2, "no marker here".data, "boom".data, false⟩
      rfl (by decide)
    rw [h]
    decide
  · have h := runWinProbability_no_payload (fun s : JsStr => some s)
      (fun _ => false) "MARK".data ⟨0, "no marker here".data, [], false⟩
      rfl (by decide)
    rw [h]
    decide

/-- Claim C9: when the last marker-prefixed line of the cleaned stdout does
not parse, `parseMarkedPayload` returns nothing at all — earlier
marker-prefixed lines (which may parse perfectly well, they sit in `pre`)
are never consulted — and consequently a zero-exit, non-timed-out
invocation with such a stdout is reported as the payload-missing failure
rather than returning the earlier valid payload. -/
theorem parseMarkedPayload_unparsable_last {α : Type}
    (parse : JsStr → Option α) (isNotOk : α → Bool)
    (stdout marker stderr : JsStr) (pre post : List JsStr) (m : JsStr)
    (hsplit : cleanLines stdout = pre ++ m :: post)
    (hm : startsWithChars m marker = true)
    (hpost : ∀ l ∈ post, startsWithChars l marker = false)
    (hfail : parse (jsTrim (m.drop marker.length)) = none) :
    parseMarkedPayload parse stdout marker = none ∧
    runWinProbability parse isNotOk marker ⟨0, stdout, stderr, false⟩ =
      .payloadMissing stdout := by
  have hnone : parseMarkedPayload parse stdout marker = none := by
    unfold parseMarkedPayload
    rw [hsplit, lastMarkerLine_concat marker m pre post hm hpost]
    exact hfail
  refine ⟨hnone, ?_⟩
  unfold runWinProbability
  rw [hnone]
  rfl

/-- Witness for C9: stdout holds a valid marker payload followed by a later
malformed marker line; the parser accepts the earlier payload (first
conjunct) yet extraction returns nothing and the zero-exit invocation is
reported as payload-missing. -/
theorem parseMarkedPayload_unparsable_last_witness :
    (fun s : JsStr => if s = "good".data then some 0 else none)
        (jsTrim ("MARK good".data.drop 4)) = some 0 ∧
    parseMarkedPayload
        (fun s : JsStr => if s = "good".data then some 0 else none)
        "MARK good\nMARK bad".data "MARK".data = none ∧
    runWinProbability
        (fun s : JsStr => if s = "good".data then some 0 else none)
        (fun _ => false) "MARK".data
        ⟨0, "MARK good\nMARK bad".data, [], false⟩ =
      .payloadMissing "MARK good\nMARK bad".data := by
  refine ⟨by decide, ?_⟩
  have h := parseMarkedPayload_unparsable_last
    (fun s : JsStr => if s = "good".data then some 0 else none)
    (fun _ => false) "MARK good\nMARK bad".data "MARK".data []
    ["MARK good".data] [] "MARK bad".data
    (by decide) (by decide) (by decide) (by decide)
  exact h

/-- Claim C4: for every pair of team averages the reported win probability
for team A is `clamp(1 / (1 + exp(-k * diff)), 0.05, 0.95)` of the logistic
of their difference — by definition of the spec-modelled combiner — and it
therefore always lies in the closed interval `[0.05, 0.95]`, whatever the
steepness, the difference, or the behaviour of the exponential routine. -/
theorem winProbabilityOfDiff_bounds (expFn : ℚ → ℚ) (k diff : ℚ) :
    5 / 100 ≤ winProbabilityOfDiff expFn k diff ∧
    winProbabilityOfDiff expFn k diff ≤ 95 / 100 := by
  unfold winProbabilityOfDiff clampQ
  exact ⟨le_max_left _ _, max_le (by norm_num) (min_le_left _ _)⟩

/-- Claim C5: for every live-probability sample rendered while a previous
sample exists, the delta is the current percentage minus the previous one
and is classified `up` when strictly above `0.05`, `down` when strictly
below `-0.05`, and `flat` otherwise (the inclusive dead-band); when no
previous sample exists no classification is emitted. -/
theorem renderLiveWinProbability_delta_classification (prev : ℚ)
    (payload : Option LivePayload) (v0 : ℚ)
    (hna : payloadNoActive payload = false)
    (hv : liveCandidates payload = some v0) :
    renderLiveWinProbability (some prev) payload =
      (.value (100 * clamp01 (interpretProbability v0))
        (some
          (if 100 * clamp01 (interpretProbability v0) - prev > 5 / 100 then
            .up
          else if 100 * clamp01 (interpretProbability v0) - prev < -(5 / 100) then
            .down
          else .flat)),
       some (100 * clamp01 (interpretProbability v0))) ∧
    renderLiveWinProbability none payload =
      (.value (100 * clamp01 (interpretProbability v0)) none,
       some (100 * clamp01 (interpretProbability v0))) := by
  constructor
  · unfold renderLiveWinProbability
    rw [hna, hv]
    simp [applyLiveWinprobDelta, classifyDelta]
  · unfold renderLiveWinProbability
    rw [hna, hv]
    simp [applyLiveWinprobDelta]

/-- Witness for C5: the previous sample is `50`, the fresh sample renders as
`50.05` percent, the delta is exactly `0.05` — inside the inclusive
dead-band — and is classified `flat`. -/
theorem renderLiveWinProbability_delta_classification_witness :
    renderLiveWinProbability (some 50)
        (some ⟨false, some (5005 / 10000), none, none, none⟩) =
      (.value (1001 / 20) (some .flat), some (1001 / 20)) := by
  have h := (renderLiveWinProbability_delta_classification 50
    (some ⟨false, some (5005 / 10000), none, none, none⟩) (5005 / 10000)
    rfl rfl).1
  rw [h]
  norm_num [interpretProbability, clamp01, min_def, max_def]

/-- Claim C6: a Live Delta Tracker tick that fires while a refresh is still
in flight (`isLiveWinprobRefreshing` set) returns immediately — the state
is unchanged and no request is issued, so ticks are skipped, never queued —
and along every event sequence from the initial state the number of
in-flight live-probability refreshes never exceeds one. -/
theorem liveTracker_single_flight (enabled : Bool) (s : TrackerState)
    (evs : List TrackerEvent) (h : s.refreshing = true) :
    trackerStep enabled s .tick = s ∧
    (trackerRun enabled trackerInit evs).inFlight ≤ 1 := by
  constructor
  · unfold trackerStep
    simp [h]
  · have hinv := trackerRun_flight_eq enabled evs trackerInit rfl
    rw [hinv]
    split <;> omega

/-- Witness for C6: a tick arriving while a refresh is in flight leaves the
state untouched, and a four-event schedule with two back-to-back ticks
keeps at most one refresh in flight. -/
theorem liveTracker_single_flight_witness :
    trackerStep true ⟨true, 1⟩ .tick = ⟨true, 1⟩ ∧
    (trackerRun true trackerInit
        [.tick, .tick, .complete, .tick]).inFlight ≤ 1 :=
  liveTracker_single_flight true ⟨true, 1⟩ [.tick, .tick, .complete, .tick] rfl

/-- Claim C7: a live-probability tick whose payload reports no active match
renders the distinguished no-active-match state and clears the retained
previous sample, so a following tick with a finite probability emits no
delta classification — the trend never bridges across matches. -/
theorem renderLiveWinProbability_noActive_clears (lastPct : Option ℚ)
    (payload next : Option LivePayload) (v0 : ℚ)
    (h : payloadNoActive payload = true)
    (hna : payloadNoActive next = false)
    (hv : liveCandidates next = some v0) :
    renderLiveWinProbability lastPct payload = (.noActiveMatch, none) ∧
    renderLiveWinProbability (renderLiveWinProbability lastPct payload).2 next =
      (.value (100 * clamp01 (interpretProbability v0)) none,
       some (100 * clamp01 (interpretProbability v0))) := by
  have h1 : renderLiveWinProbability lastPct payload = (.noActiveMatch, none) := by
    unfold renderLiveWinProbability
    rw [h]
    simp
  refine ⟨h1, ?_⟩
  rw [h1]
  unfold renderLiveWinProbability
  rw [hna, hv]
  simp [applyLiveWinprobDelta]

/-- Witness for C7: a retained sample of `42` is discarded by a
no-active-match payload, and the next finite sample (rendering as `60`
percent) carries no delta. -/
theorem renderLiveWinProbability_noActive_clears_witness :
    renderLiveWinProbability (some 42)
        (some ⟨true, some (7 / 10), none, none, none⟩) =
      (.noActiveMatch, none) ∧
    renderLiveWinProbability
        (renderLiveWinProbability (some 42)
          (some ⟨true, some (7 / 10), none, none, none⟩)).2
        (some ⟨false, some (6 / 10), none, none, none⟩) =
      (.value 60 none, some 60) := by
  have h := renderLiveWinProbability_noActive_clears (some 42)
    (some ⟨true, some (7 / 10), none, none, none⟩)
    (some ⟨false, some (6 / 10), none, none, none⟩) (6 / 10) rfl rfl rfl
  refine ⟨h.1, ?_⟩
  rw [h.2]
  norm_num [interpretProbability, clamp01, min_def, max_def]

/-- Claim C8: the no-active-match condition is the only failure kind the
`fetchWinProbability` boundary converts into a non-failure outcome, and it
is detected purely by the substring matching of `matchesNoActiveMatchText`
over the error text: the outcome is the success-shaped `no_active_match`
result exactly when the thrown error message matches the known phrasings or
the not-ok payload matches them through `isNoActiveMatchPayload`; every
other thrown error or not-ok payload propagates as a failure, and ok
payloads pass through. -/
theorem fetchWinProbability_noActive_boundary
    (r : Except JsStr WinProbHttpPayload) :
    (fetchWinProbabilityOutcome r = .noActiveMatchSuccess ↔
      (∃ e, r = .error e ∧ matchesNoActiveMatchText e = true) ∨
      (∃ p, r = .ok p ∧ p.okFalse = true ∧ isNoActiveMatchPayload p = true)) ∧
    (∀ e, r = .error e → matchesNoActiveMatchText e = false →
      fetchWinProbabilityOutcome r = .failure e) ∧
    (∀ p, r = .ok p → p.okFalse = true → isNoActiveMatchPayload p = false →
      fetchWinProbabilityOutcome r =
        .failure (if p.error = [] then
          "Calcul win probability impossible.".data else p.error)) ∧
    (∀ p, r = .ok p → p.okFalse = false →
      fetchWinProbabilityOutcome r = .success p) := by
  refine ⟨?_, ?_, ?_, ?_⟩
  · cases r with
    | error e =>
        cases hm : matchesNoActiveMatchText e with
        | false => simp [fetchWinProbabilityOutcome, hm]
        | true => simp [fetchWinProbabilityOutcome, hm]
    | ok p =>
        cases ho : p.okFalse with
        | false => simp [fetchWinProbabilityOutcome, ho]
        | true =>
            cases hp : isNoActiveMatchPayload p with
            | false => simp [fetchWinProbabilityOutcome, ho, hp]
            | true => simp [fetchWinProbabilityOutcome, ho, hp]
  · intro e he hfalse
    subst he
    simp [fetchWinProbabilityOutcome, hfalse]
  · intro p hp ho hnp
    subst hp
    simp [fetchWinProbabilityOutcome, ho, hnp]
  · intro p hp ho
    subst hp
    simp [fetchWinProbabilityOutcome, ho]

/-- Witness for C8: a thrown error and a not-ok payload carrying the known
phrasings (in mixed case) become the success-shaped no-active-match
outcome, while a thrown error and a not-ok payload with other text
propagate as failures. -/
theorem fetchWinProbability_noActive_boundary_witness :
    fetchWinProbabilityOutcome
        (.error "HTTP 404 - Aucune Partie EN Cours (resolver)".data) =
      .noActiveMatchSuccess ∧
    fetchWinProbabilityOutcome (.error "HTTP 500 - upstream down".data) =
      .failure "HTTP 500 - upstream down".data ∧
    fetchWinProbabilityOutcome
        (.ok ⟨true, "No Ongoing Match for player".data, [], .other⟩) =
      .noActiveMatchSuccess ∧
    fetchWinProbabilityOutcome (.ok ⟨true, "boom".data, [], .other⟩) =
      .failure "boom".data := by
  refine ⟨?_, ?_, ?_, ?_⟩
  · exact (fetchWinProbability_noActive_boundary _).1.mpr
      (Or.inl ⟨_, rfl, by decide⟩)
  · exact (fetchWinProbability_noActive_boundary _).2.1 _ rfl (by decide)
  · exact (fetchWinProbability_noActive_boundary _).1.mpr
      (Or.inr ⟨_, rfl, rfl, by decide⟩)
  · have h := (fetchWinProbability_noActive_boundary _).2.2.1
      ⟨true, "boom".data, [], .other⟩ rfl rfl (by decide)
    rw [h]
    decide

/-- Claim C10: when a payload (not flagged no-active-match) has a first
finite candidate `v`, the rendered value is `v` interpreted by magnitude —
divided by 100 exactly when `1 < v ≤ 100`, used as-is when `v ≤ 1` or
`v > 100` — then clamped to `[0, 1]` and shown as that fraction times 100,
so the displayed fraction always lies in `[0, 1]`; in particular a
percentage field carrying `v ≤ 1` is displayed as the fraction `v`. -/
theorem renderWinProbability_magnitude (p : WinProbDisplayPayload) (v : ℚ)
    (hna : p.no_active_match = false)
    (hv : winprobCandidates (some p) = some v) :
    renderWinProbability (some p) =
      .value (100 * clamp01 (interpretProbability v)) ∧
    0 ≤ clamp01 (interpretProbability v) ∧
    clamp01 (interpretProbability v) ≤ 1 ∧
    (1 < v → v ≤ 100 → interpretProbability v = v / 100) ∧
    ((v ≤ 1 ∨ 100 < v) → interpretProbability v = v) := by
  refine ⟨?_, le_max_left _ _, max_le zero_le_one (min_le_left _ _), ?_, ?_⟩
  · simp [renderWinProbability, hna, hv]
  · intro h1 h2
    simp [interpretProbability, h1, h2]
  · intro hcase
    have hno : ¬(1 < v ∧ v ≤ 100) := by
      rcases hcase with hle | hgt
      · exact fun hc => absurd hc.1 (not_lt.mpr hle)
      · exact fun hc => absurd hc.2 (not_le.mpr hgt)
    simp [interpretProbability, hno]

/-- Witness for C10: a payload whose only finite field is
`win_probability_pct = 0.8` (meaning 0.8 percent) is displayed as the
fraction `0.8`, that is 80 percent. -/
theorem renderWinProbability_magnitude_witness :
    renderWinProbability
        (some ⟨false, none, none, none, some (8 / 10), none⟩) = .value 80 := by
  have h := (renderWinProbability_magnitude
    ⟨false, none, none, none, some (8 / 10), none⟩ (8 / 10) rfl rfl).1
  rw [h]
  norm_num [interpretProbability, clamp01, min_def, max_def]

end CS2Widget
